import Mathlib

/-!
Shallow embedding of the DermaLens authentication API
(controllers/authController.js, middleware/auth.js as documented in the
repository README, config/supabase.js).

Modelling conventions:
* The Supabase client is an external collaborator.  Every store round trip
  the handlers make is represented by an oracle field in a per-handler
  environment record: the field holds the data/error pair the store call
  returned.  A select-single result is a record with independent data and
  error channels, exactly the destructured shape the JavaScript code sees.
* Writes the handlers issue are recorded in an explicit trace of DbOp
  values; a separate interpreter applyOps gives the store-level meaning of
  a trace, so frame properties (which rows changed) can be stated.
* jsonwebtoken is modelled structurally: a signed token is the claims
  payload (subject id, email, issued-at, expiry) together with a MAC tag
  over payload and secret.  The HMAC is idealised as an injective keyed
  encoding into Nat, so tag collisions do not exist in the model; the
  7-day expiry window and the verify-time checks follow the library
  semantics (a token is rejected as soon as the clock reaches exp).
* bcrypt.compare is an oracle function in the signin environment.
* JavaScript truthiness on request fields (absent or empty string both
  count as missing) is the function truthy.
-/

namespace DermaLens

/-- Claims payload embedded in a token: the code signs
an object with the user id and email. -/
structure Claims where
  id : String
  email : String
deriving DecidableEq, Repr

/-- Injective encoding of a list of naturals into one natural,
used to build the idealised MAC tag. -/
def encListNat : List Nat → Nat
  | [] => 0
  | x :: xs => Nat.pair x (encListNat xs) + 1

/-- Injective encoding of a string into a natural. -/
def encStr (s : String) : Nat :=
  encListNat (s.data.map Char.toNat)

/-- Idealised MAC: the tag of a token payload under a secret.  Injective
in every argument, standing in for HMAC-SHA256 whose collisions are
computationally unreachable. -/
def macTag (secret id email : String) (iat exp : Nat) : Nat :=
  Nat.pair (encStr secret)
    (Nat.pair (encStr id) (Nat.pair (encStr email) (Nat.pair iat exp)))

/-- A signed token: payload fields plus the signature tag.  This is the
structural counterpart of the compact JWT string. -/
structure SignedToken where
  id : String
  email : String
  iat : Nat
  exp : Nat
  sig : Nat
deriving DecidableEq, Repr

/-- Seconds in the 7-day expiry window the code passes to jwt.sign. -/
def sevenDays : Nat := 7 * 24 * 60 * 60

/-- jwt.sign with expiresIn 7d: embeds issuance time and
issuance time + 7 days, and tags the payload with the secret. -/
def jwtSign (secret : String) (c : Claims) (now : Nat) : SignedToken :=
  { id := c.id
    email := c.email
    iat := now
    exp := now + sevenDays
    sig := macTag secret c.id c.email now (now + sevenDays) }

/-- jwt.verify: checks the tag against the payload and the secret, and
that the clock has not reached the embedded expiry; any failure gives the
uniform none outcome. -/
def jwtVerify (secret : String) (t : SignedToken) (now : Nat) : Option Claims :=
  if t.sig = macTag secret t.id t.email t.iat t.exp ∧ now < t.exp then
    some { id := t.id, email := t.email }
  else
    none

theorem encListNat_inj : ∀ {xs ys : List Nat}, encListNat xs = encListNat ys → xs = ys
  | [], [], _ => rfl
  | [], _ :: _, h => by simp [encListNat] at h
  | _ :: _, [], h => by simp [encListNat] at h
  | x :: xs, y :: ys, h => by
    have h' : Nat.pair x (encListNat xs) = Nat.pair y (encListNat ys) := by
      simpa [encListNat] using h
    obtain ⟨h1, h2⟩ := Nat.pair_eq_pair.mp h'
    rw [h1, encListNat_inj h2]

theorem charToNat_injective : Function.Injective Char.toNat := by
  intro c d h
  have hc := Char.ofNat_toNat c
  rw [h, Char.ofNat_toNat d] at hc
  exact hc.symm

theorem encStr_inj {a b : String} (h : encStr a = encStr b) : a = b := by
  have h1 : a.data.map Char.toNat = b.data.map Char.toNat := encListNat_inj h
  have h2 : a.data = b.data := List.map_injective_iff.mpr charToNat_injective h1
  cases a
  cases b
  exact congrArg String.mk h2

theorem macTag_inj {s i1 e1 i2 e2 : String} {a1 b1 a2 b2 : Nat}
    (h : macTag s i1 e1 a1 b1 = macTag s i2 e2 a2 b2) :
    i1 = i2 ∧ e1 = e2 ∧ a1 = a2 ∧ b1 = b2 := by
  unfold macTag at h
  have h1 := (Nat.pair_eq_pair.mp h).2
  obtain ⟨hi, h2⟩ := Nat.pair_eq_pair.mp h1
  obtain ⟨he, h3⟩ := Nat.pair_eq_pair.mp h2
  obtain ⟨ha, hb⟩ := Nat.pair_eq_pair.mp h3
  exact ⟨encStr_inj hi, encStr_inj he, ha, hb⟩

/-- Result shape of a Supabase select-single call as the handlers
destructure it: independent data and error channels. -/
structure SbRes (α : Type) where
  data : Option α
  error : Option String
deriving DecidableEq, Repr

/-- Row of the users table. -/
structure UserRec where
  id : String
  email : String
  password : String
  name : String
  phone : Option String
  created_at : Nat
deriving DecidableEq, Repr

/-- Row of the profiles table. -/
structure ProfileRec where
  id : String
  user_id : String
  avatar : Option String
  created_at : Nat
deriving DecidableEq, Repr

/-- Row of the sessions table. -/
structure SessionRec where
  id : String
  user_id : String
  ip_address : String
  user_agent : String
  last_activity : Nat
deriving DecidableEq, Repr

/-- Atomic JSON value appearing in a response body. -/
inductive JVal1 where
  | null
  | str (s : String)
  | num (n : Nat)
  | tok (t : SignedToken)
deriving DecidableEq, Repr

/-- JSON value at the top level of a response body: an atom or a flat
object of atoms (the handlers never nest deeper). -/
inductive JVal where
  | atom (a : JVal1)
  | obj (fields : List (String × JVal1))
deriving DecidableEq, Repr

/-- An HTTP response: status code plus JSON object body, ordered fields. -/
structure HttpResponse where
  status : Nat
  body : List (String × JVal)
deriving DecidableEq, Repr

/-- Shorthand for a string atom at the top level of a body. -/
def Jstr (s : String) : JVal := JVal.atom (JVal1.str s)

/-- Body consisting of a single message field, the common error shape. -/
def msgBody (m : String) : List (String × JVal) := [("message", Jstr m)]

/-- Look up a top-level field of a response body. -/
def bodyField (b : List (String × JVal)) (k : String) : Option JVal :=
  (b.find? (fun p => p.1 = k)).map (fun p => p.2)

/-- All strings occurring as values in an atom; a token contributes its
payload strings (the id and email it carries). -/
def jval1Strings : JVal1 → List String
  | JVal1.null => []
  | JVal1.str s => [s]
  | JVal1.num _ => []
  | JVal1.tok t => [t.id, t.email]

/-- All strings occurring as values in a JSON value. -/
def jvalStrings : JVal → List String
  | JVal.atom a => jval1Strings a
  | JVal.obj fs => fs.foldr (fun p acc => jval1Strings p.2 ++ acc) []

/-- All strings occurring as values anywhere in a response body. -/
def bodyStrings (b : List (String × JVal)) : List String :=
  b.foldr (fun p acc => jvalStrings p.2 ++ acc) []

/-- JavaScript truthiness of an optional string request field: absent and
empty string are both falsy. -/
def truthy : Option String → Bool
  | none => false
  | some s => !(s == "")

/-- Render an optional string column as JSON. -/
def optStrJ : Option String → JVal1
  | none => JVal1.null
  | some s => JVal1.str s

/-- A database write issued by a handler, as recorded in its trace. -/
inductive DbOp where
  | insertUser (u : UserRec)
  | insertProfile (id user_id : String) (created_at : Nat)
  | insertSession (id user_id ip ua : String) (last_activity : Nat)
  | updateUsers (fields : List (String × String)) (id : String)
  | updateProfiles (avatar : String) (user_id : String)
  | deleteSessionsByUserId (user_id : String)
deriving DecidableEq, Repr

/-- The whole durable state the handlers touch. -/
structure Store where
  users : List UserRec
  profiles : List ProfileRec
  sessions : List SessionRec
deriving DecidableEq, Repr

/-- Meaning of an update-users write: only the listed columns change. -/
def applyUserFields (fs : List (String × String)) (u : UserRec) : UserRec :=
  { u with
    name := (((fs.find? (fun p => p.1 = "name")).map (fun p => p.2)).getD u.name)
    phone :=
      match (fs.find? (fun p => p.1 = "phone")).map (fun p => p.2) with
      | some v => some v
      | none => u.phone }

/-- Store-level meaning of one write. -/
def applyOp (st : Store) : DbOp → Store
  | DbOp.insertUser u => { st with users := st.users ++ [u] }
  | DbOp.insertProfile pid uid t =>
      { st with profiles := st.profiles ++ [⟨pid, uid, none, t⟩] }
  | DbOp.insertSession sid uid ip ua t =>
      { st with sessions := st.sessions ++ [⟨sid, uid, ip, ua, t⟩] }
  | DbOp.updateUsers fs uid =>
      { st with users := st.users.map (fun u => if u.id = uid then applyUserFields fs u else u) }
  | DbOp.updateProfiles av uid =>
      { st with profiles :=
          st.profiles.map (fun p => if p.user_id = uid then { p with avatar := some av } else p) }
  | DbOp.deleteSessionsByUserId uid =>
      { st with sessions := st.sessions.filter (fun s => s.user_id ≠ uid) }

/-- Store-level meaning of a trace of writes. -/
def applyOps (st : Store) (ops : List DbOp) : Store := ops.foldl applyOp st

/-- Request body of POST signup. -/
structure SignupReq where
  email : Option String
  password : Option String
  name : Option String
  phone : Option String
deriving DecidableEq, Repr

/-- Oracles for one signup run: store-call results, the bcrypt hash the
library produced, the generated identifiers, the clock, the signing
secret, and the NODE_ENV deployment mode (present in the process
environment; the controller never reads it). -/
structure SignupEnv where
  node_env : String
  findByEmail : SbRes UserRec
  hashed : String
  userId : String
  profileId : String
  insertUserError : Option String
  insertProfileError : Option String
  secret : String
  now : Nat
deriving DecidableEq, Repr

/-- The signup handler (authController.js lines 7 to 90).  Validates the
three required fields, checks the data channel of the existence lookup
only, hashes, inserts the user (the returned row is the inserted row, per
the store contract of insert-select-single), attempts the best-effort
profile insert whose error is only logged, signs a token over the fresh
user id and the stored email, and shapes the 201 body. -/
def signup (req : SignupReq) (env : SignupEnv) : HttpResponse × List DbOp :=
  if !(truthy req.email && truthy req.password && truthy req.name) then
    (⟨400, msgBody "Email, password, dan nama wajib diisi"⟩, [])
  else
    match env.findByEmail.data with
    | some _ => (⟨400, msgBody "Email sudah terdaftar"⟩, [])
    | none =>
      let newUser : UserRec :=
        { id := env.userId
          email := req.email.getD ""
          password := env.hashed
          name := req.name.getD ""
          phone := if truthy req.phone then req.phone else none
          created_at := env.now }
      match env.insertUserError with
      | some m =>
          (⟨500, [("message", Jstr "Gagal mendaftarkan pengguna"), ("error", Jstr m)]⟩,
           [DbOp.insertUser newUser])
      | none =>
          let token := jwtSign env.secret ⟨env.userId, newUser.email⟩ env.now
          (⟨201, [("message", Jstr "Pendaftaran berhasil"),
                  ("user", JVal.obj [("id", JVal1.str newUser.id),
                                     ("email", JVal1.str newUser.email),
                                     ("name", JVal1.str newUser.name)]),
                  ("token", JVal.atom (JVal1.tok token))]⟩,
           [DbOp.insertUser newUser, DbOp.insertProfile env.profileId env.userId env.now])

/-- Request body of POST signin. -/
structure SigninReq where
  email : Option String
  password : Option String
deriving DecidableEq, Repr

/-- Oracles for one signin run; compare is the bcrypt.compare oracle
applied to the supplied plaintext and the stored hash. -/
structure SigninEnv where
  findByEmail : SbRes UserRec
  compare : String → String → Bool
  sessionId : String
  insertSessionError : Option String
  secret : String
  now : Nat
  ip : String
  userAgent : String

/-- The signin handler (authController.js lines 93 to 158).  Validates
both fields, returns the one fixed 401 body when the lookup reports an
error, returns no row, or the password does not verify, and otherwise
signs a token, attempts the best-effort session insert whose error is
only logged, and shapes the 200 body. -/
def signin (req : SigninReq) (env : SigninEnv) : HttpResponse × List DbOp :=
  if !(truthy req.email && truthy req.password) then
    (⟨400, msgBody "Email dan password wajib diisi"⟩, [])
  else
    match env.findByEmail.error, env.findByEmail.data with
    | some _, _ => (⟨401, msgBody "Email atau password salah"⟩, [])
    | none, none => (⟨401, msgBody "Email atau password salah"⟩, [])
    | none, some u =>
      if !(env.compare (req.password.getD "") u.password) then
        (⟨401, msgBody "Email atau password salah"⟩, [])
      else
        let token := jwtSign env.secret ⟨u.id, u.email⟩ env.now
        (⟨200, [("message", Jstr "Login berhasil"),
                ("user", JVal.obj [("id", JVal1.str u.id),
                                   ("email", JVal1.str u.email),
                                   ("name", JVal1.str u.name)]),
                ("token", JVal.atom (JVal1.tok token))]⟩,
         [DbOp.insertSession env.sessionId u.id env.ip env.userAgent env.now])

/-- Columns of the users row that getProfile selects. -/
structure UserCore where
  id : String
  email : String
  name : String
  phone : Option String
  created_at : Nat
deriving DecidableEq, Repr

/-- The single column the profiles lookup of getProfile selects. -/
structure AvatarRow where
  avatar : Option String
deriving DecidableEq, Repr

/-- Oracles for one getProfile run. -/
structure GetProfileEnv where
  userRow : SbRes UserCore
  profileRow : SbRes AvatarRow
deriving DecidableEq, Repr

/-- Avatar value the handler renders: optional-chaining on the profile
row followed by or-null, so a missing row, a null avatar and an empty
string all become null. -/
def avatarJ (r : Option AvatarRow) : JVal1 :=
  match r with
  | none => JVal1.null
  | some p =>
    match p.avatar with
    | none => JVal1.null
    | some a => if a == "" then JVal1.null else JVal1.str a

/-- The getProfile handler (authController.js lines 161 to 193).  A user
lookup error is a 404; the profile lookup error channel is never read, so
a failed profile fetch still yields 200 with avatar null.  The case of a
null user row with a null error reproduces the JavaScript spread of null,
an empty object carrying only the avatar field. -/
def getProfile (userId : String) (env : GetProfileEnv) : HttpResponse × List DbOp :=
  let _ := userId
  match env.userRow.error with
  | some _ => (⟨404, msgBody "Pengguna tidak ditemukan"⟩, [])
  | none =>
    match env.userRow.data with
    | none =>
        (⟨200, [("user", JVal.obj [("avatar", avatarJ env.profileRow.data)])]⟩, [])
    | some u =>
        (⟨200, [("user", JVal.obj
            [("id", JVal1.str u.id), ("email", JVal1.str u.email),
             ("name", JVal1.str u.name), ("phone", optStrJ u.phone),
             ("created_at", JVal1.num u.created_at),
             ("avatar", avatarJ env.profileRow.data)])]⟩, [])

/-- Request body of PUT profile. -/
structure UpdateProfileReq where
  name : Option String
  phone : Option String
  avatar : Option String
deriving DecidableEq, Repr

/-- Oracles for one updateProfile run. -/
structure UpdateProfileEnv where
  updateUserError : Option String
  updateProfileError : Option String
deriving DecidableEq, Repr

/-- The partial users-table update the handler builds: only truthy
fields, name before phone, matching the object insertion order. -/
def userUpdates (req : UpdateProfileReq) : List (String × String) :=
  (if truthy req.name then [("name", req.name.getD "")] else []) ++
  (if truthy req.phone then [("phone", req.phone.getD "")] else [])

/-- The updateProfile handler (authController.js lines 196 to 234).  The
users update is issued only when the built partial update is nonempty;
the profiles update only when avatar is truthy; each failure is a 500
carrying the raw store error; otherwise 200. -/
def updateProfile (req : UpdateProfileReq) (userId : String)
    (env : UpdateProfileEnv) : HttpResponse × List DbOp :=
  let us := userUpdates req
  let t1 : List DbOp := if us.isEmpty then [] else [DbOp.updateUsers us userId]
  if !us.isEmpty && env.updateUserError.isSome then
    (⟨500, [("message", Jstr "Gagal memperbarui profil"),
            ("error", Jstr (env.updateUserError.getD ""))]⟩, t1)
  else
    let t2 := t1 ++
      (if truthy req.avatar then [DbOp.updateProfiles (req.avatar.getD "") userId] else [])
    if truthy req.avatar && env.updateProfileError.isSome then
      (⟨500, [("message", Jstr "Gagal memperbarui avatar"),
              ("error", Jstr (env.updateProfileError.getD ""))]⟩, t2)
    else
      (⟨200, msgBody "Profil berhasil diperbarui"⟩, t2)

/-- Oracles for one logout run: the error channel of the session delete,
which the handler only logs. -/
structure LogoutEnv where
  deleteSessionsError : Option String
deriving DecidableEq, Repr

/-- The logout handler (authController.js lines 237 to 257): one bulk
delete of the sessions rows keyed by the resolved user id, then 200
whether or not the delete reported an error. -/
def logout (userId : String) (env : LogoutEnv) : HttpResponse × List DbOp :=
  let _ := env
  (⟨200, msgBody "Logout berhasil"⟩, [DbOp.deleteSessionsByUserId userId])

/-- Outcome of the authorization middleware: a rejection response or the
resolved user attached to the request before the handler runs. -/
inductive GateResult where
  | rejected (status : Nat) (message : String)
  | allowed (user : UserRec)
deriving DecidableEq, Repr

/-- Find-by-id against the user store, as the middleware resolves the
subject named in the claims. -/
def findById (users : List UserRec) (id : String) : Option UserRec :=
  users.find? (fun u => u.id == id)

/-- Prefix test on strings by character list: the semantics of the
startsWith call of the middleware. -/
def strStartsWith (s p : String) : Bool := p.data.isPrefixOf s.data

/-- Split of a character list at every occurrence of a separator, empty
segments preserved: the semantics of the split call of the middleware. -/
def splitChars (c : Char) : List Char → List (List Char)
  | [] => [[]]
  | x :: xs =>
    match splitChars c xs with
    | [] => if x == c then [[], []] else [[x]]
    | y :: ys => if x == c then [] :: y :: ys else (x :: y) :: ys

/-- The token part of the Authorization header: the word after the first
space, as split-on-space index one extracts it. -/
def bearerToken (s : String) : String :=
  match (splitChars ' ' s.data).get? 1 with
  | some cs => ⟨cs⟩
  | none => ""

/-- The authorization middleware (middleware/auth.js, as documented in
the repository README).  Absent header or missing Bearer prefix rejects
with authentication-required; the verifier (the jwt.verify oracle, none
for any tampered, malformed or expired token since the library throw is
caught) rejects with invalid-token; an unresolvable subject rejects with
user-not-found; otherwise the user is attached. -/
def authGate (authHeader : Option String) (verify : String → Option Claims)
    (users : List UserRec) : GateResult :=
  match authHeader with
  | none => GateResult.rejected 401 "Authentication required"
  | some h =>
    if !(strStartsWith h "Bearer ") then
      GateResult.rejected 401 "Authentication required"
    else
      match verify (bearerToken h) with
      | none => GateResult.rejected 401 "Invalid token"
      | some c =>
        match findById users c.id with
        | none => GateResult.rejected 401 "User not found"
        | some u => GateResult.allowed u

/-- C1: for a signin request with both fields present, the response when
no user matches the email (lookup error or empty data) is identical, in
status and body, to the response when the user exists but the password
does not verify: both are the one 401 body. -/
theorem signin_no_user_wrong_password_identical
    (req : SigninReq) (env1 env2 : SigninEnv) (u : UserRec)
    (he : truthy req.email = true) (hp : truthy req.password = true)
    (h1 : env1.findByEmail.error.isSome = true ∨ env1.findByEmail.data = none)
    (h2 : env2.findByEmail = ⟨some u, none⟩)
    (h3 : env2.compare (req.password.getD "") u.password = false) :
    (signin req env1).1 = (signin req env2).1 ∧
    (signin req env1).1 = ⟨401, msgBody "Email atau password salah"⟩ := by
  have hv : (truthy req.email && truthy req.password) = true := by rw [he, hp]; rfl
  have e2 : (signin req env2).1 = ⟨401, msgBody "Email atau password salah"⟩ := by
    simp [signin, hv, h2, h3]
  have e1 : (signin req env1).1 = ⟨401, msgBody "Email atau password salah"⟩ := by
    cases herr : env1.findByEmail.error with
    | some m => simp [signin, hv, herr]
    | none =>
      cases h1 with
      | inl h => rw [herr] at h; simp at h
      | inr h => simp [signin, hv, herr, h]
  exact ⟨e1.trans e2.symm, e1⟩

def c1req : SigninReq := ⟨some "a@x.com", some "pw"⟩

def c1user : UserRec := ⟨"u1", "a@x.com", "hash", "A", none, 0⟩

def c1env1 : SigninEnv :=
  ⟨⟨none, some "boom"⟩, fun _ _ => false, "s1", none, "k", 0, "ip", "ua"⟩

def c1env2 : SigninEnv :=
  ⟨⟨some c1user, none⟩, fun _ _ => false, "s1", none, "k", 0, "ip", "ua"⟩

/-- Witness for C1 at a concrete request, a failed lookup and a
wrong-password run against a stored user. -/
theorem signin_no_user_wrong_password_identical_witness :
    (signin c1req c1env1).1 = (signin c1req c1env2).1 ∧
    (signin c1req c1env1).1 = ⟨401, msgBody "Email atau password salah"⟩ :=
  signin_no_user_wrong_password_identical c1req c1env1 c1env2 c1user
    (by decide) (by decide) (Or.inl rfl) rfl rfl

/-- C2: verifying a freshly issued token returns the original claims;
verifying it once the 7-day window has elapsed yields the uniform none
outcome; and a token altered from the issued one on one side, payload or
tag, while the other side is preserved, yields none at every clock. -/
theorem token_roundtrip_expiry_tamper (secret : String) (c : Claims) (now : Nat) :
    jwtVerify secret (jwtSign secret c now) now = some c ∧
    (∀ n, now + sevenDays ≤ n → jwtVerify secret (jwtSign secret c now) n = none) ∧
    (∀ t : SignedToken, t ≠ jwtSign secret c now →
      (t.sig = (jwtSign secret c now).sig ∨
        (t.id = c.id ∧ t.email = c.email ∧ t.iat = now ∧ t.exp = now + sevenDays)) →
      ∀ n, jwtVerify secret t n = none) := by
  obtain ⟨cid, cem⟩ := c
  refine ⟨?_, ?_, ?_⟩
  · have hlt : now < now + sevenDays := Nat.lt_add_of_pos_right (by decide)
    simp [jwtVerify, jwtSign, hlt]
  · intro n hn
    have hlt : ¬(n < now + sevenDays) := by omega
    simp [jwtVerify, jwtSign, hlt]
  · intro t hne hside n
    unfold jwtVerify
    rw [if_neg]
    rintro ⟨hsig, -⟩
    apply hne
    simp only [jwtSign] at hside
    rcases hside with hs | ⟨h1, h2, h3, h4⟩
    · have hmac : macTag secret t.id t.email t.iat t.exp =
          macTag secret cid cem now (now + sevenDays) := hsig.symm.trans hs
      obtain ⟨hi, he', ha, hb⟩ := macTag_inj hmac
      cases t
      simp_all [jwtSign]
    · cases t
      simp_all [jwtSign]

/-- Witness for C2: concrete claims and secret; immediate verification
succeeds, verification at the window boundary fails, and bumping the tag
of the issued token makes verification fail. -/
theorem token_roundtrip_expiry_tamper_witness :
    jwtVerify "k" (jwtSign "k" ⟨"u", "e"⟩ 0) 0 = some ⟨"u", "e"⟩ ∧
    jwtVerify "k" (jwtSign "k" ⟨"u", "e"⟩ 0) sevenDays = none ∧
    jwtVerify "k"
      { jwtSign "k" ⟨"u", "e"⟩ 0 with sig := (jwtSign "k" ⟨"u", "e"⟩ 0).sig + 1 } 0 = none := by
  obtain ⟨p1, p2, p3⟩ := token_roundtrip_expiry_tamper "k" ⟨"u", "e"⟩ 0
  refine ⟨p1, p2 sevenDays (by omega), ?_⟩
  apply p3
  · intro h
    have := congrArg SignedToken.sig h
    simp [jwtSign] at this
  · exact Or.inr ⟨rfl, rfl, rfl, rfl⟩

def c3req : SignupReq := ⟨some "a@x.com", some "pw", some "A", none⟩

def c3env : SignupEnv :=
  ⟨"production", ⟨none, none⟩, "h", "u1", "p1", some "db down", none, "k", 0⟩

/-- C3: the controller never consults NODE_ENV, so the raw store error
message is placed in the error field of the 500 body in every deployment
mode, production included; the repository README states the field appears
only in development.  Evaluated here at a failing user insert under
NODE_ENV set to production. -/
theorem signup_error_detail_leaks_in_production :
    c3env.node_env = "production" ∧
    (signup c3req c3env).1.status = 500 ∧
    bodyField (signup c3req c3env).1.body "error" = some (Jstr "db down") ∧
    (∀ mode : String, (signup c3req { c3env with node_env := mode }).1 =
      (signup c3req c3env).1) :=
  ⟨rfl, rfl, rfl, fun _ => rfl⟩

/-- C4: the three best-effort writes are swallowed.  With the secondary
error oracles left arbitrary, a valid signup still answers 201 with user
and token and its response does not depend on the profile-insert error; a
valid signin still answers 200 with user and token and its response does
not depend on the session-insert error; logout answers its 200 message
for every session-delete outcome. -/
theorem best_effort_write_failures_swallowed
    (sreq : SignupReq) (senv : SignupEnv) (lreq : SigninReq) (lenv : SigninEnv)
    (u : UserRec) (uid : String) (oenv : LogoutEnv)
    (h1 : truthy sreq.email = true) (h2 : truthy sreq.password = true)
    (h3 : truthy sreq.name = true)
    (h4 : senv.findByEmail.data = none) (h5 : senv.insertUserError = none)
    (h6 : truthy lreq.email = true) (h7 : truthy lreq.password = true)
    (h8 : lenv.findByEmail = ⟨some u, none⟩)
    (h9 : lenv.compare (lreq.password.getD "") u.password = true) :
    (signup sreq senv).1.status = 201 ∧
    (bodyField (signup sreq senv).1.body "user").isSome = true ∧
    (bodyField (signup sreq senv).1.body "token").isSome = true ∧
    (signup sreq senv).1 = (signup sreq { senv with insertProfileError := none }).1 ∧
    (signin lreq lenv).1.status = 200 ∧
    (bodyField (signin lreq lenv).1.body "user").isSome = true ∧
    (bodyField (signin lreq lenv).1.body "token").isSome = true ∧
    (signin lreq lenv).1 = (signin lreq { lenv with insertSessionError := none }).1 ∧
    (logout uid oenv).1 = ⟨200, msgBody "Logout berhasil"⟩ := by
  have hv : (truthy sreq.email && truthy sreq.password && truthy sreq.name) = true := by
    rw [h1, h2, h3]; rfl
  have hw : (truthy lreq.email && truthy lreq.password) = true := by
    rw [h6, h7]; rfl
  refine ⟨?_, ?_, ?_, ?_, ?_, ?_, ?_, ?_, rfl⟩ <;>
    simp [signup, signin, hv, hw, h4, h5, h8, h9, bodyField, logout]

def c4sreq : SignupReq := ⟨some "a@x.com", some "pw", some "A", none⟩

def c4senv : SignupEnv :=
  ⟨"development", ⟨none, none⟩, "h", "u1", "p1", none, some "profile write failed", "k", 0⟩

def c4lreq : SigninReq := ⟨some "a@x.com", some "pw"⟩

def c4user : UserRec := ⟨"u1", "a@x.com", "h", "A", none, 0⟩

def c4lenv : SigninEnv :=
  ⟨⟨some c4user, none⟩, fun _ _ => true, "s1", some "session write failed", "k", 5, "ip", "ua"⟩

/-- Witness for C4 with all three secondary writes failing. -/
theorem best_effort_write_failures_swallowed_witness :
    (signup c4sreq c4senv).1.status = 201 ∧
    (bodyField (signup c4sreq c4senv).1.body "user").isSome = true ∧
    (bodyField (signup c4sreq c4senv).1.body "token").isSome = true ∧
    (signup c4sreq c4senv).1 = (signup c4sreq { c4senv with insertProfileError := none }).1 ∧
    (signin c4lreq c4lenv).1.status = 200 ∧
    (bodyField (signin c4lreq c4lenv).1.body "user").isSome = true ∧
    (bodyField (signin c4lreq c4lenv).1.body "token").isSome = true ∧
    (signin c4lreq c4lenv).1 = (signin c4lreq { c4lenv with insertSessionError := none }).1 ∧
    (logout "u1" ⟨some "delete failed"⟩).1 = ⟨200, msgBody "Logout berhasil"⟩ :=
  best_effort_write_failures_swallowed c4sreq c4senv c4lreq c4lenv c4user "u1"
    ⟨some "delete failed"⟩ (by decide) (by decide) (by decide) rfl rfl
    (by decide) (by decide) rfl rfl

/-- C5: a valid signup of an unregistered email answers 201; the user
object holds exactly the id, email and name fields; the subject id inside
the returned token is the returned user id; and the value strings of the
whole body are exactly the success message, the user fields and the token
payload, so the plaintext password and the bcrypt hash, being distinct
from those, occur nowhere in the response. -/
theorem signup_success_response_shape
    (req : SignupReq) (env : SignupEnv) (e p n : String)
    (he : req.email = some e) (hp : req.password = some p) (hn : req.name = some n)
    (he1 : e ≠ "") (hp1 : p ≠ "") (hn1 : n ≠ "")
    (h4 : env.findByEmail.data = none) (h5 : env.insertUserError = none) :
    (signup req env).1.status = 201 ∧
    bodyField (signup req env).1.body "user" =
      some (JVal.obj [("id", JVal1.str env.userId), ("email", JVal1.str e),
                      ("name", JVal1.str n)]) ∧
    bodyField (signup req env).1.body "token" =
      some (JVal.atom (JVal1.tok (jwtSign env.secret ⟨env.userId, e⟩ env.now))) ∧
    (jwtSign env.secret ⟨env.userId, e⟩ env.now).id = env.userId ∧
    bodyStrings (signup req env).1.body =
      ["Pendaftaran berhasil", env.userId, e, n, env.userId, e] ∧
    (p ∉ ["Pendaftaran berhasil", env.userId, e, n] →
      p ∉ bodyStrings (signup req env).1.body) ∧
    (env.hashed ∉ ["Pendaftaran berhasil", env.userId, e, n] →
      env.hashed ∉ bodyStrings (signup req env).1.body) := by
  have hv : (truthy req.email && truthy req.password && truthy req.name) = true := by
    simp [truthy, he, hp, hn, he1, hp1, hn1]
  have hb : (signup req env).1 =
      ⟨201, [("message", Jstr "Pendaftaran berhasil"),
             ("user", JVal.obj [("id", JVal1.str env.userId), ("email", JVal1.str e),
                                ("name", JVal1.str n)]),
             ("token", JVal.atom (JVal1.tok (jwtSign env.secret ⟨env.userId, e⟩ env.now)))]⟩ := by
    simp [signup, truthy, hv, h4, h5, he, hp, hn, he1, hp1, hn1]
  refine ⟨by rw [hb], by rw [hb]; rfl, by rw [hb]; rfl, rfl, by rw [hb]; rfl, ?_, ?_⟩ <;>
  · intro hmem
    rw [hb]
    intro hin
    apply hmem
    simp [bodyStrings, jvalStrings, jval1Strings, Jstr, jwtSign] at hin
    simp only [List.mem_cons, List.not_mem_nil, or_false]
    tauto

def c5req : SignupReq := ⟨some "a@x.com", some "pw", some "A", some "555"⟩

def c5env : SignupEnv :=
  ⟨"development", ⟨none, none⟩, "hashval", "u1", "p1", none, none, "k", 9⟩

/-- Witness for C5 at a concrete valid signup. -/
theorem signup_success_response_shape_witness :
    (signup c5req c5env).1.status = 201 ∧
    bodyField (signup c5req c5env).1.body "user" =
      some (JVal.obj [("id", JVal1.str "u1"), ("email", JVal1.str "a@x.com"),
                      ("name", JVal1.str "A")]) ∧
    bodyField (signup c5req c5env).1.body "token" =
      some (JVal.atom (JVal1.tok (jwtSign "k" ⟨"u1", "a@x.com"⟩ 9))) ∧
    (jwtSign "k" ⟨"u1", "a@x.com"⟩ 9).id = "u1" ∧
    bodyStrings (signup c5req c5env).1.body =
      ["Pendaftaran berhasil", "u1", "a@x.com", "A", "u1", "a@x.com"] ∧
    ("pw" ∉ ["Pendaftaran berhasil", "u1", "a@x.com", "A"] →
      "pw" ∉ bodyStrings (signup c5req c5env).1.body) ∧
    ("hashval" ∉ ["Pendaftaran berhasil", "u1", "a@x.com", "A"] →
      "hashval" ∉ bodyStrings (signup c5req c5env).1.body) :=
  signup_success_response_shape c5req c5env "a@x.com" "pw" "A"
    rfl rfl rfl (by decide) (by decide) (by decide) rfl rfl

def gateVerifyNone : String → Option Claims := fun _ => none

/-- C6 counterexample: the rejection message is not uniform across
causes.  At a concrete input, an absent Authorization header is rejected
with the authentication-required message while a present Bearer header
whose token fails verification is rejected with the invalid-token
message, and the two messages differ. -/
theorem gate_rejection_message_not_uniform :
    authGate none gateVerifyNone [] =
      GateResult.rejected 401 "Authentication required" ∧
    authGate (some "Bearer t") gateVerifyNone [] =
      GateResult.rejected 401 "Invalid token" ∧
    "Authentication required" ≠ "Invalid token" :=
  ⟨rfl, rfl, by decide⟩

/-- C6 amended: every rejection of the gate carries status 401, with a
cause-dependent message: authentication-required for an absent header or
a missing Bearer prefix, invalid-token when the verifier fails on the
extracted token, user-not-found when the subject of the claims is not in
the store; only otherwise is the resolved user attached. -/
theorem gate_rejects_all_causes_with_401
    (verify : String → Option Claims) (users : List UserRec) (h : String)
    (c : Claims) (u : UserRec) :
    authGate none verify users = GateResult.rejected 401 "Authentication required" ∧
    (strStartsWith h "Bearer " = false →
      authGate (some h) verify users =
        GateResult.rejected 401 "Authentication required") ∧
    (strStartsWith h "Bearer " = true → verify (bearerToken h) = none →
      authGate (some h) verify users = GateResult.rejected 401 "Invalid token") ∧
    (strStartsWith h "Bearer " = true → verify (bearerToken h) = some c →
      findById users c.id = none →
      authGate (some h) verify users = GateResult.rejected 401 "User not found") ∧
    (strStartsWith h "Bearer " = true → verify (bearerToken h) = some c →
      findById users c.id = some u →
      authGate (some h) verify users = GateResult.allowed u) ∧
    (∀ hdr st mes, authGate hdr verify users = GateResult.rejected st mes → st = 401) := by
  refine ⟨rfl, ?_, ?_, ?_, ?_, ?_⟩
  · intro hb
    simp [authGate, hb]
  · intro hb hv
    simp [authGate, hb, hv]
  · intro hb hv hf
    simp [authGate, hb, hv, hf]
  · intro hb hv hf
    simp [authGate, hb, hv, hf]
  · intro hdr st mes hres
    match hdr with
    | none => cases hres; rfl
    | some s =>
      simp only [authGate] at hres
      cases hb : strStartsWith s "Bearer " with
      | false =>
        rw [hb] at hres
        simp only [Bool.not_false, if_true] at hres
        cases hres
        rfl
      | true =>
        rw [hb] at hres
        simp only [Bool.not_true, Bool.false_eq_true, if_false] at hres
        cases hv : verify (bearerToken s) with
        | none => rw [hv] at hres; cases hres; rfl
        | some c' =>
          rw [hv] at hres
          cases hf : findById users c'.id with
          | none => simp only [hf] at hres; cases hres; rfl
          | some u' => simp only [hf] at hres; cases hres

def c6users : List UserRec := [⟨"u1", "a@x.com", "h", "A", none, 0⟩]

def c6verify : String → Option Claims := fun s =>
  if s = "good" then some ⟨"u1", "a@x.com"⟩
  else if s = "ghost" then some ⟨"u9", "g@x.com"⟩
  else none

/-- Witness for the amended C6: all four rejection causes and the success
case at concrete headers, a concrete verifier and a one-user store. -/
theorem gate_rejects_all_causes_with_401_witness :
    authGate none c6verify c6users =
      GateResult.rejected 401 "Authentication required" ∧
    authGate (some "Token good") c6verify c6users =
      GateResult.rejected 401 "Authentication required" ∧
    authGate (some "Bearer bad") c6verify c6users =
      GateResult.rejected 401 "Invalid token" ∧
    authGate (some "Bearer ghost") c6verify c6users =
      GateResult.rejected 401 "User not found" ∧
    authGate (some "Bearer good") c6verify c6users =
      GateResult.allowed ⟨"u1", "a@x.com", "h", "A", none, 0⟩ := by
  obtain ⟨p1, p2, p3, -, -, -⟩ :=
    gate_rejects_all_causes_with_401 c6verify c6users "Token good"
      ⟨"u1", "a@x.com"⟩ ⟨"u1", "a@x.com", "h", "A", none, 0⟩
  obtain ⟨-, -, p3', p4', p5', -⟩ :=
    gate_rejects_all_causes_with_401 c6verify c6users "Bearer bad"
      ⟨"u1", "a@x.com"⟩ ⟨"u1", "a@x.com", "h", "A", none, 0⟩
  obtain ⟨-, -, -, p4, -, -⟩ :=
    gate_rejects_all_causes_with_401 c6verify c6users "Bearer ghost"
      ⟨"u9", "g@x.com"⟩ ⟨"u1", "a@x.com", "h", "A", none, 0⟩
  obtain ⟨-, -, -, -, p5, -⟩ :=
    gate_rejects_all_causes_with_401 c6verify c6users "Bearer good"
      ⟨"u1", "a@x.com"⟩ ⟨"u1", "a@x.com", "h", "A", none, 0⟩
  exact ⟨p1, p2 (by decide), p3' (by decide) (by decide),
    p4 (by decide) (by decide) (by decide),
    p5 (by decide) (by decide) (by decide)⟩

/-- C7: which writes updateProfile issues is decided purely by which
request fields are truthy.  No truthy name or phone means no users-table
write in the trace; no truthy avatar means no profiles-table write; a
phone-only request issues exactly the one users update carrying only the
phone column, whose store meaning changes the phone of the addressed user
and nothing else; a request with no truthy field issues zero writes and
still answers 200. -/
theorem update_profile_frame
    (req : UpdateProfileReq) (uid : String) (env : UpdateProfileEnv) (st : Store) :
    (truthy req.name = false → truthy req.phone = false →
      ∀ fs i, DbOp.updateUsers fs i ∉ (updateProfile req uid env).2) ∧
    (truthy req.avatar = false →
      ∀ a i, DbOp.updateProfiles a i ∉ (updateProfile req uid env).2) ∧
    (∀ ph, req.name = none → req.phone = some ph → ph ≠ "" → req.avatar = none →
      (updateProfile req uid env).2 = [DbOp.updateUsers [("phone", ph)] uid] ∧
      applyOps st (updateProfile req uid env).2 =
        { st with users :=
            st.users.map (fun u => if u.id = uid then { u with phone := some ph } else u) }) ∧
    (truthy req.name = false → truthy req.phone = false → truthy req.avatar = false →
      (updateProfile req uid env).2 = [] ∧
      (updateProfile req uid env).1 = ⟨200, msgBody "Profil berhasil diperbarui"⟩) := by
  refine ⟨?_, ?_, ?_, ?_⟩
  · intro hn hp fs i
    have hus : userUpdates req = [] := by simp [userUpdates, hn, hp]
    unfold updateProfile
    rw [hus]
    by_cases ha : truthy req.avatar <;>
      by_cases hpe : env.updateProfileError.isSome <;>
        simp [ha, hpe]
  · intro ha a i
    unfold updateProfile
    by_cases hue : env.updateUserError.isSome <;>
      by_cases hus : (userUpdates req).isEmpty <;>
        simp [ha, hue, hus]
  · intro ph hn hp hne ha
    have hus : userUpdates req = [("phone", ph)] := by
      simp [userUpdates, hn, hp, truthy, hne]
    have hav : truthy req.avatar = false := by simp [truthy, ha]
    have htr : (updateProfile req uid env).2 = [DbOp.updateUsers [("phone", ph)] uid] := by
      unfold updateProfile
      rw [hus]
      by_cases hue : env.updateUserError.isSome <;> simp [hav, hue]
    refine ⟨htr, ?_⟩
    rw [htr]
    have hfields : ∀ u : UserRec,
        applyUserFields [("phone", ph)] u = { u with phone := some ph } := by
      intro u
      simp [applyUserFields, List.find?]
    simp only [applyOps, List.foldl_cons, List.foldl_nil, applyOp, hfields]
  · intro hn hp ha
    have hus : userUpdates req = [] := by simp [userUpdates, hn, hp]
    unfold updateProfile
    rw [hus]
    simp [ha]

def c7env : UpdateProfileEnv := ⟨none, none⟩

def c7store : Store :=
  ⟨[⟨"u1", "a@x.com", "h", "A", some "111", 0⟩, ⟨"u2", "b@x.com", "h2", "B", none, 0⟩],
   [⟨"p1", "u1", some "pic.png", 0⟩], []⟩

/-- Witness for C7: a phone-only update against a concrete two-user store
changes only the phone of the addressed user, and an all-empty update
issues no write and answers 200. -/
theorem update_profile_frame_witness :
    (updateProfile ⟨none, some "555", none⟩ "u1" c7env).2 =
      [DbOp.updateUsers [("phone", "555")] "u1"] ∧
    applyOps c7store (updateProfile ⟨none, some "555", none⟩ "u1" c7env).2 =
      { c7store with users :=
          c7store.users.map (fun u => if u.id = "u1" then { u with phone := some "555" } else u) } ∧
    (updateProfile ⟨none, none, none⟩ "u1" c7env).2 = [] ∧
    (updateProfile ⟨none, none, none⟩ "u1" c7env).1 =
      ⟨200, msgBody "Profil berhasil diperbarui"⟩ := by
  obtain ⟨-, -, p3, -⟩ :=
    update_profile_frame ⟨none, some "555", none⟩ "u1" c7env c7store
  obtain ⟨-, -, -, p4⟩ :=
    update_profile_frame ⟨none, none, none⟩ "u1" c7env c7store
  obtain ⟨q1, q2⟩ := p3 "555" rfl rfl (by decide) rfl
  obtain ⟨q3, q4⟩ := p4 rfl rfl rfl
  exact ⟨q1, q2, q3, q4⟩

/-- C8: when the user lookup succeeds and the profile lookup returns no
data, whatever its error channel says, getProfile still answers 200 with
the full core user fields and a null avatar. -/
theorem get_profile_missing_profile_row_avatar_null
    (uid : String) (env : GetProfileEnv) (u : UserCore)
    (hu : env.userRow = ⟨some u, none⟩)
    (hp : env.profileRow.data = none) :
    (getProfile uid env).1 = ⟨200, [("user", JVal.obj
      [("id", JVal1.str u.id), ("email", JVal1.str u.email), ("name", JVal1.str u.name),
       ("phone", optStrJ u.phone), ("created_at", JVal1.num u.created_at),
       ("avatar", JVal1.null)])]⟩ ∧
    (getProfile uid env).2 = [] := by
  constructor <;> simp [getProfile, hu, hp, avatarJ]

def c8user : UserCore := ⟨"u1", "a@x.com", "A", some "555", 3⟩

def c8env : GetProfileEnv := ⟨⟨some c8user, none⟩, ⟨none, some "no rows returned"⟩⟩

/-- Witness for C8 at a concrete user whose profile lookup failed. -/
theorem get_profile_missing_profile_row_avatar_null_witness :
    (getProfile "u1" c8env).1 = ⟨200, [("user", JVal.obj
      [("id", JVal1.str "u1"), ("email", JVal1.str "a@x.com"), ("name", JVal1.str "A"),
       ("phone", optStrJ (some "555")), ("created_at", JVal1.num 3),
       ("avatar", JVal1.null)])]⟩ ∧
    (getProfile "u1" c8env).2 = [] :=
  get_profile_missing_profile_row_avatar_null "u1" c8env c8user rfl rfl

/-- C9: logout issues one bulk delete keyed by the resolved user id and
answers its 200 message for every delete outcome; at the store level all
and only the sessions of that user disappear while users and profiles are
untouched; and the authorization gate, which reads only the users table
and the token itself, answers identically before and after, so a token
valid before logout verifies until its natural expiry. -/
theorem logout_bulk_delete_keeps_tokens_valid
    (uid : String) (env : LogoutEnv) (st : Store)
    (hdr : Option String) (verify : String → Option Claims) :
    (logout uid env).1 = ⟨200, msgBody "Logout berhasil"⟩ ∧
    (logout uid env).2 = [DbOp.deleteSessionsByUserId uid] ∧
    (applyOps st (logout uid env).2).sessions =
      st.sessions.filter (fun s => s.user_id ≠ uid) ∧
    (applyOps st (logout uid env).2).users = st.users ∧
    (applyOps st (logout uid env).2).profiles = st.profiles ∧
    authGate hdr verify (applyOps st (logout uid env).2).users =
      authGate hdr verify st.users ∧
    (∀ secret c t0 m, m < t0 + sevenDays →
      jwtVerify secret (jwtSign secret c t0) m = some c) := by
  refine ⟨rfl, rfl, rfl, rfl, rfl, rfl, ?_⟩
  intro secret c t0 m hm
  obtain ⟨cid, cem⟩ := c
  simp [jwtVerify, jwtSign, hm]

def c9store : Store :=
  ⟨[⟨"u1", "a@x.com", "h", "A", none, 0⟩],
   [⟨"p1", "u1", none, 0⟩],
   [⟨"s1", "u1", "ip1", "ua1", 1⟩, ⟨"s2", "u2", "ip2", "ua2", 2⟩,
    ⟨"s3", "u1", "ip3", "ua3", 3⟩]⟩

/-- Witness for C9: against a concrete store both sessions of the user
are deleted, the session of the other user survives, and a token issued
to the user still verifies one second before its expiry. -/
theorem logout_bulk_delete_keeps_tokens_valid_witness :
    (logout "u1" ⟨some "delete failed"⟩).1 = ⟨200, msgBody "Logout berhasil"⟩ ∧
    (applyOps c9store (logout "u1" ⟨some "delete failed"⟩).2).sessions =
      [⟨"s2", "u2", "ip2", "ua2", 2⟩] ∧
    (applyOps c9store (logout "u1" ⟨some "delete failed"⟩).2).users = c9store.users ∧
    jwtVerify "k" (jwtSign "k" ⟨"u1", "a@x.com"⟩ 10) (10 + sevenDays - 1) =
      some ⟨"u1", "a@x.com"⟩ := by
  obtain ⟨p1, -, p3, p4, -, -, p7⟩ :=
    logout_bulk_delete_keeps_tokens_valid "u1" ⟨some "delete failed"⟩ c9store none
      (fun _ => none)
  refine ⟨p1, ?_, p4, p7 "k" ⟨"u1", "a@x.com"⟩ 10 (10 + sevenDays - 1) (by decide)⟩
  rw [p3]
  decide

/-- C10: the duplicate-email check of signup reads only the data channel
of the existence lookup.  When the lookup carries no row, the whole run,
response and writes, is independent of the error channel, the conflict
body is never produced, and the run proceeds to insert the new user. -/
theorem signup_lookup_error_treated_as_unregistered
    (req : SignupReq) (env : SignupEnv)
    (h1 : truthy req.email = true) (h2 : truthy req.password = true)
    (h3 : truthy req.name = true)
    (hf : env.findByEmail.data = none) :
    (∀ e1 e2 : Option String,
      signup req { env with findByEmail := ⟨none, e1⟩ } =
        signup req { env with findByEmail := ⟨none, e2⟩ }) ∧
    signup req env = signup req { env with findByEmail := ⟨none, none⟩ } ∧
    (signup req env).1.body ≠ msgBody "Email sudah terdaftar" ∧
    (∃ u, DbOp.insertUser u ∈ (signup req env).2) := by
  have hv : (truthy req.email && truthy req.password && truthy req.name) = true := by
    rw [h1, h2, h3]; rfl
  have key : ∀ env' : SignupEnv, env'.findByEmail.data = none →
      signup req env' =
        signup req { env' with findByEmail := ⟨none, none⟩ } := by
    intro env' hd
    unfold signup
    rw [hv]
    simp only [Bool.not_true, Bool.false_eq_true, if_false, hd]
  refine ⟨?_, key env hf, ?_, ?_⟩
  · intro e1 e2
    rw [key { env with findByEmail := ⟨none, e1⟩ } rfl,
        key { env with findByEmail := ⟨none, e2⟩ } rfl]
  · unfold signup
    rw [hv]
    simp only [Bool.not_true, Bool.false_eq_true, if_false, hf]
    cases hi : env.insertUserError <;>
      simp [msgBody, Jstr]
  · unfold signup
    rw [hv]
    simp only [Bool.not_true, Bool.false_eq_true, if_false, hf]
    cases hi : env.insertUserError <;> exact ⟨_, List.mem_cons_self _ _⟩

def c10env : SignupEnv :=
  ⟨"development", ⟨none, some "connection reset"⟩, "h", "u1", "p1", none, none, "k", 0⟩

/-- Witness for C10: a signup whose existence lookup failed with a
connection error behaves exactly like one whose lookup found nothing. -/
theorem signup_lookup_error_treated_as_unregistered_witness :
    signup ⟨some "a@x.com", some "pw", some "A", none⟩ c10env =
      signup ⟨some "a@x.com", some "pw", some "A", none⟩
        { c10env with findByEmail := ⟨none, none⟩ } ∧
    (signup ⟨some "a@x.com", some "pw", some "A", none⟩ c10env).1.body ≠
      msgBody "Email sudah terdaftar" ∧
    (∃ u, DbOp.insertUser u ∈
      (signup ⟨some "a@x.com", some "pw", some "A", none⟩ c10env).2) := by
  obtain ⟨-, p2, p3, p4⟩ :=
    signup_lookup_error_treated_as_unregistered
      ⟨some "a@x.com", some "pw", some "A", none⟩ c10env
      (by decide) (by decide) (by decide) rfl
  exact ⟨p2, p3, p4⟩

end DermaLens
